import Mathlib

/-!
Verification development for the Toonflow AI adapter layer: a shallow
embedding of the image/video provider adapters (dispatch by model-name
substring checks, request-body construction, API-key and data-URI
normalisation, response-shape probing, and the polling loop), together
with theorems settling the specified behavioural claims.

JavaScript conventions are modelled explicitly: optional strings are
encoded as `String` with `""` for an absent value (both are falsy in
every check the adapters perform), `String.prototype.includes` is the
substring test `jsIncludes`, and Node's `Buffer.toString("base64")` is
the executable encoder `base64Encode` over UTF-8 bytes.
-/

namespace Toonflow

/-- Boolean character-list test: does the second list start with the first?
This models anchored (`^`) pattern matching and `String.prototype.startsWith`. -/
def listStartsWith : List Char → List Char → Bool
  | [], _ => true
  | _ :: _, [] => false
  | a :: as, b :: bs => a == b && listStartsWith as bs

/-- Substring occurrence test on character lists, modelling
`String.prototype.includes` for the nonempty literal patterns the dispatchers use. -/
def listContains (pat : List Char) : List Char → Bool
  | [] => listStartsWith pat []
  | c :: rest => listStartsWith pat (c :: rest) || listContains pat rest

/-- JavaScript `s.includes(pat)`. -/
def jsIncludes (s pat : String) : Bool := listContains pat.data s.data

/-- JavaScript `s.startsWith(pat)`. -/
def jsStartsWith (s pat : String) : Bool := listStartsWith pat.data s.data

/-- JavaScript `s.toLowerCase()` restricted to the ASCII model identifiers
inspected by the dispatchers. -/
def jsToLower (s : String) : String := ⟨s.data.map Char.toLower⟩

/-- Whitespace class of the JavaScript regex `\s` and of `String.prototype.trim`,
covering the characters that can occur around an API key: space, tab, line
breaks, vertical tab, form feed, no-break space and the BOM. -/
def isJsWs (c : Char) : Bool :=
  c == ' ' || c == '\t' || c == '\n' || c == '\r' ||
    c.toNat == 11 || c.toNat == 12 || c.toNat == 160 || c.toNat == 65279

/-- JavaScript `String.prototype.trim`: drop leading and trailing whitespace. -/
def trimJs (cs : List Char) : List Char :=
  ((cs.dropWhile isJsWs).reverse.dropWhile isJsWs).reverse

/-- Replacement `apiKey.replace(/^Bearer\s+/i, "")`: a case-insensitive leading
`Bearer` followed by at least one whitespace character is removed together with
the whole maximal whitespace run; otherwise the string is unchanged. -/
def stripBearer (cs : List Char) : List Char :=
  if (cs.take 6).map Char.toLower == ['b', 'e', 'a', 'r', 'e', 'r'] then
    match cs.drop 6 with
    | c :: rest => if isJsWs c then rest.dropWhile isJsWs else cs
    | [] => cs
  else cs

/-- Normalisation `config.apiKey.replace(/^Bearer\s+/i, "").trim()` applied by
the adapters before the key is used. -/
def normalizeApiKey (s : String) : String := ⟨trimJs (stripBearer s.data)⟩

/-- Authorization header value `Bearer ${apiKey}` built from the normalised key. -/
def authHeader (s : String) : String := "Bearer " ++ normalizeApiKey s

/-- Letter class of the regex `[a-z]` under the `/i` flag. -/
def isAsciiLetter (c : Char) : Bool :=
  ('a' ≤ c && c ≤ 'z') || ('A' ≤ c && c ≤ 'Z')

/-- Replacement `.replace(/^data:image\/[a-z]+;base64,/i, "")` stripping a
data-URI prefix from a reference image before it enters a request body;
strings without the full anchored prefix are unchanged. -/
def stripDataImage (s : String) : String :=
  let cs := s.data
  if (cs.take 11).map Char.toLower == "data:image/".data then
    let rest := cs.drop 11
    if (rest.takeWhile isAsciiLetter).isEmpty then s
    else
      let after := rest.dropWhile isAsciiLetter
      if (after.take 8).map Char.toLower == ";base64,".data then ⟨after.drop 8⟩
      else s
  else s

/-- Alphabet of standard base64 as used by Node's `Buffer.toString("base64")`. -/
def b64Alphabet : List Char :=
  "ABCDEFGHIJKLMNOPQRSTUVWXYZabcdefghijklmnopqrstuvwxyz0123456789+/".data

/-- Base64 digit for a 6-bit value. -/
def b64Digit (n : Nat) : Char := b64Alphabet.getD n 'A'

/-- Standard base64 encoding of a byte list, as produced by Node's
`Buffer.toString("base64")` (with `=` padding). -/
def base64Encode : List Nat → List Char
  | [] => []
  | [a] => [b64Digit (a / 4), b64Digit (a % 4 * 16), '=', '=']
  | [a, b] => [b64Digit (a / 4), b64Digit (a % 4 * 16 + b / 16), b64Digit (b % 16 * 4), '=']
  | a :: b :: c :: rest =>
    b64Digit (a / 4) :: b64Digit (a % 4 * 16 + b / 16) :: b64Digit (b % 16 * 4 + c / 64) ::
      b64Digit (c % 64) :: base64Encode rest

/-- UTF-8 byte sequence of one character; `Buffer.from(string)` encodes UTF-8. -/
def utf8Bytes (c : Char) : List Nat :=
  let n := c.toNat
  if n < 128 then [n]
  else if n < 2048 then [192 + n / 64, 128 + n % 64]
  else if n < 65536 then [224 + n / 4096, 128 + n / 64 % 64, 128 + n % 64]
  else [240 + n / 262144, 128 + n / 4096 % 64, 128 + n / 64 % 64, 128 + n % 64]

/-- UTF-8 byte sequence of a string. -/
def utf8Of (s : String) : List Nat := s.data.foldr (fun c acc => utf8Bytes c ++ acc) []

/-- Node `Buffer.from(s).toString("base64")`. -/
def bufferBase64 (s : String) : String := ⟨base64Encode (utf8Of s)⟩

/-- Provider configuration (`AIConfig`); absent optional strings are modelled
as `""`, matching their JavaScript falsiness in every check performed. -/
structure AIConfig where
  model : String := ""
  apiKey : String := ""
  baseURL : String := ""
deriving DecidableEq

/-- Unified image request (`ImageConfig`); absent strings are `""` and the
`seed !== undefined` check is modelled by `Option`. -/
structure ImageConfig where
  prompt : String := ""
  systemPrompt : String := ""
  imageBase64 : List String := []
  imageUrl : String := ""
  size : String := ""
  quality : String := ""
  seed : Option Int := none
  resType : String := ""
  aspectRatio : String := ""
  extraParams : List (String × String) := []
deriving DecidableEq

/-- Unified video request (`VideoConfig`) fields used by the embedded adapters;
`videoFile` records presence of an uploaded file. -/
structure VideoConfig where
  prompt : String := ""
  duration : Nat := 0
  aspectRatio : String := ""
  imageBase64 : List String := []
  videoFile : Bool := false
  videoUrl : String := ""
  frameBase64List : Option (List String) := none
deriving DecidableEq

/-- Provider adapter selected by a dispatcher; a dispatcher is a total function
into this type, so exactly one adapter is chosen per configuration. -/
inductive Route where
  | zhipu
  | modelScope
  | openAICompat
deriving DecidableEq

/-- Configuration failures thrown before any provider HTTP call. -/
inductive CfgErr where
  | missingModel
  | missingApiKey
  | missingBaseUrl
  | missingPrompt
  | missingImage
  | missingVideo
  | unsupportedModel
deriving DecidableEq

/-- Zhipu-family condition of the image dispatcher, other.ts line 22:
`model.includes("cogview") || model.includes("GLM-Image")`. -/
def zhipuImageCond (model : String) : Bool :=
  jsIncludes model "cogview" || jsIncludes model "GLM-Image"

/-- ModelScope-family condition of the image dispatcher, other.ts line 27:
`model.includes("Z-Image") || model.includes("modelscope") || model.includes("/")`. -/
def modelScopeImageCond (model : String) : Bool :=
  jsIncludes model "Z-Image" || jsIncludes model "modelscope" || jsIncludes model "/"

/-- Ordered routing of the image dispatcher (other.ts lines 22-33): Zhipu keywords
first, then ModelScope keywords or slash presence, else the OpenAI-compatible
default; the first matching branch wins and there is no backtracking. -/
def imageRoute (model : String) : Route :=
  if zhipuImageCond model then .zhipu
  else if modelScopeImageCond model then .modelScope
  else .openAICompat

/-- Zhipu-family condition of the image dispatcher variant (part_000 line 21),
which lowercases the model first. -/
def zhipuImageCondVariant (model : String) : Bool :=
  jsIncludes (jsToLower model) "cogview" || jsIncludes (jsToLower model) "glm-image"

/-- ModelScope-family condition of the image dispatcher variant (part_000 line 27). -/
def modelScopeImageCondVariant (model : String) : Bool :=
  jsIncludes model "/" || jsIncludes (jsToLower model) "modelscope" ||
    jsIncludes (jsToLower model) "z-image"

/-- Ordered routing of the image dispatcher variant (part_000 lines 21-32). -/
def imageRouteVariant (model : String) : Route :=
  if zhipuImageCondVariant model then .zhipu
  else if modelScopeImageCondVariant model then .modelScope
  else .openAICompat

/-- Request body built by `generateZhipuImage` (other.ts lines 138-158): optional
fields are included only when the input field is truthy, and the first reference
image is stripped of its data-URI prefix. -/
structure ZhipuImageBody where
  model : String
  prompt : String
  size : Option String
  quality : Option String
  image : Option String
deriving DecidableEq

/-- Construction of the Zhipu CogView request body from the unified input. -/
def zhipuImageBody (input : ImageConfig) (config : AIConfig) : ZhipuImageBody :=
  { model := config.model
    prompt := input.prompt
    size := if input.size == "" then none else some input.size
    quality := if input.quality == "" then none else some input.quality
    image :=
      match input.imageBase64 with
      | [] => none
      | first :: _ => some (stripDataImage first) }

/-- Request body built by `generateModelScopeImage` (other.ts lines 206-225 and
part_000 lines 201-218): OpenAI-compatible field names with `n = 1`. -/
structure MSCompatImageBody where
  model : String
  prompt : String
  n : Nat
  size : Option String
  seed : Option Int
  image : Option String
deriving DecidableEq

/-- Construction of the ModelScope OpenAI-compatible request body. -/
def msCompatImageBody (input : ImageConfig) (config : AIConfig) : MSCompatImageBody :=
  { model := config.model
    prompt := input.prompt
    n := 1
    size := if input.size == "" then none else some input.size
    seed := input.seed
    image :=
      match input.imageBase64 with
      | [] => none
      | first :: _ => some (stripDataImage first) }

/-- Native-format request of the ModelScope native image adapter
(modelScope.ts lines 23-40): `input.image` from the first stripped base64 entry,
else `input.image_url` from `imageUrl`. -/
structure MSNativeRequest where
  prompt : String
  size : Option String
  seed : Option Int
  image : Option String
  image_url : Option String
deriving DecidableEq

/-- Construction of the ModelScope native request body. -/
def msNativeRequest (input : ImageConfig) : MSNativeRequest :=
  { prompt := input.prompt
    size := if input.size == "" then none else some input.size
    seed := input.seed
    image :=
      match input.imageBase64 with
      | [] => none
      | first :: _ => some (stripDataImage first)
    image_url :=
      match input.imageBase64 with
      | _ :: _ => none
      | [] => if input.imageUrl == "" then none else some input.imageUrl }

/-- Provider request issued by the image dispatcher branch that first performs an
HTTP call; the default branch carries the configured base URL. -/
inductive ImagePlan where
  | zhipu (body : ZhipuImageBody)
  | modelScope (body : MSCompatImageBody)
  | openAICompat (baseURL : String)
deriving DecidableEq

/-- Validation and routing of the image dispatcher before its first provider HTTP
call (other.ts lines 14-41): model then apiKey are required; the default
OpenAI-compatible branch additionally requires baseURL; the Zhipu and ModelScope
branches proceed directly to request construction. -/
def imagePrepare (input : ImageConfig) (config : AIConfig) : Except CfgErr ImagePlan :=
  if config.model == "" then .error .missingModel
  else if config.apiKey == "" then .error .missingApiKey
  else if zhipuImageCond config.model then .ok (.zhipu (zhipuImageBody input config))
  else if modelScopeImageCond config.model then .ok (.modelScope (msCompatImageBody input config))
  else if config.baseURL == "" then .error .missingBaseUrl
  else .ok (.openAICompat config.baseURL)

/-- Zhipu condition of the video dispatcher variant (video other.ts line 297). -/
def zhipuVideoCondVariant (model : String) : Bool :=
  jsIncludes model "cogvideo" || jsIncludes model "CogVideo"

/-- ModelScope condition of the video dispatcher variant (video other.ts line 302). -/
def modelScopeVideoCondVariant (model baseURL : String) : Bool :=
  jsIncludes model "video" &&
    (jsIncludes model "modelscope" || jsIncludes model "/" || jsIncludes baseURL "modelscope")

/-- Validation and routing of the video dispatcher variant before its first
provider HTTP call (video other.ts lines 291-307): only apiKey is checked;
`config.model || ""` substitutes the empty string for an absent model, and the
default branch requires baseURL. -/
def videoPrepareVariant (config : AIConfig) : Except CfgErr Route :=
  if config.apiKey == "" then .error .missingApiKey
  else if zhipuVideoCondVariant config.model then .ok .zhipu
  else if modelScopeVideoCondVariant config.model config.baseURL then .ok .modelScope
  else if config.baseURL == "" then .error .missingBaseUrl
  else .ok .openAICompat

/-- Parameter validation of the ModelScope native image adapter before HTTP
(modelScope.ts lines 14-16): model, apiKey and prompt are all required. -/
def msNativePrepare (input : ImageConfig) (config : AIConfig) : Except CfgErr MSNativeRequest :=
  if config.model == "" then .error .missingModel
  else if config.apiKey == "" then .error .missingApiKey
  else if input.prompt == "" then .error .missingPrompt
  else .ok (msNativeRequest input)

/-- Request of the legacy ModelScope image adapter (modelScope.ts lines 107-123);
the first `imageBase64` entry is used verbatim. -/
structure MSLegacyRequest where
  image : String
  parameters : List (String × String)
deriving DecidableEq

/-- Request construction of the legacy ModelScope image adapter: a reference
image is required (first `imageBase64` entry, else `imageUrl`, else failure);
no model or apiKey validation is performed. -/
def msLegacyPrepare (input : ImageConfig) : Except CfgErr MSLegacyRequest :=
  match input.imageBase64 with
  | first :: _ => .ok { image := first, parameters := input.extraParams }
  | [] =>
    if input.imageUrl == "" then .error .missingImage
    else .ok { image := input.imageUrl, parameters := input.extraParams }

/-- Parameter validation of the BigModel video adapter before any provider call
(bigModel.ts lines 17-23): apiKey, a model from the GLM-4V allow-list, and a
video input (`videoFile` or `frameBase64List`) are required. -/
def bigModelVideoValidate (input : VideoConfig) (config : AIConfig) : Except CfgErr Unit :=
  if config.apiKey == "" then .error .missingApiKey
  else if !(config.model == "glm-4v" || config.model == "glm-4v-plus") then .error .unsupportedModel
  else if !input.videoFile && input.frameBase64List.isNone then .error .missingVideo
  else .ok ()

/-- Result of an HTTP GET with `responseType: "arraybuffer"`; an absent
content-type header is modelled as `""`. Downloads are modelled by a function
from URLs to such results. -/
structure DownloadResp where
  bytes : List Nat
  contentType : String := ""
deriving DecidableEq

/-- Download-and-wrap helper `urlToBase64` (other.ts lines 263-268): fetch the
URL, re-encode the bytes as base64 and wrap with the declared content-type,
defaulting to image/png when the header is absent. -/
def urlToBase64 (download : String → DownloadResp) (url : String) : String :=
  let res := download url
  let mime := if res.contentType == "" then "image/png" else res.contentType
  "data:" ++ mime ++ ";base64," ++ String.mk (base64Encode res.bytes)

/-- One item of the Zhipu image response `data` array. -/
structure ZhipuImageItem where
  url : String := ""
deriving DecidableEq

/-- Zhipu image response body `{ data: [...] }`; an absent array is `[]`
(both fail the `!data.data || !data.data[0]?.url` guard identically). -/
structure ZhipuImageResp where
  data : List ZhipuImageItem := []
deriving DecidableEq

/-- Response handling of `generateZhipuImage` after the POST (other.ts lines
174-189): require `data[0].url`; when base64 output is requested, download the
URL and re-encode, otherwise return the URL. -/
def zhipuFinish (download : String → DownloadResp) (input : ImageConfig)
    (resp : ZhipuImageResp) : Except String String :=
  match resp.data.head? with
  | none => .error "智谱API返回格式错误，未获取到图片URL"
  | some item =>
    if item.url == "" then .error "智谱API返回格式错误，未获取到图片URL"
    else if input.resType == "b64" then .ok (urlToBase64 download item.url)
    else .ok item.url

/-- Fields probed on a ModelScope `output` object; absent fields are `""`
(falsy, exactly like `undefined`, in every probe performed). -/
structure MSOutput where
  image_url : String := ""
  image_base64 : String := ""
  text : String := ""
deriving DecidableEq

/-- Parsed ModelScope response body; the whole `output` object may be absent,
in which case every `output?.field` probe is falsy. -/
structure MSResponse where
  output : Option MSOutput := none
deriving DecidableEq

/-- Probe `data.output?.image_url` with JavaScript optional chaining. -/
def msOutImageUrl (resp : MSResponse) : String := (resp.output.map MSOutput.image_url).getD ""

/-- Probe `data.output?.image_base64`. -/
def msOutImageBase64 (resp : MSResponse) : String :=
  (resp.output.map MSOutput.image_base64).getD ""

/-- Probe `data.output?.text`. -/
def msOutText (resp : MSResponse) : String := (resp.output.map MSOutput.text).getD ""

/-- Format failure of the ModelScope native adapter (modelScope.ts lines 85-86):
the raw body is emitted for diagnostics via `console.error` and the fixed
message is thrown; the error value records both. -/
structure MSFormatError where
  message : String
  rawBody : MSResponse
deriving DecidableEq

/-- Response normalisation of the ModelScope native image adapter
(modelScope.ts lines 59-86): probe `output.image_url`, then
`output.image_base64` (re-prefixing bare base64 with `data:image/png;base64,`),
then `output.text` (wrapped as `data:text/plain;base64,`), and otherwise fail
with the format error carrying the raw body. -/
def msNativeNormalize (download : String → DownloadResp) (input : ImageConfig)
    (resp : MSResponse) : Except MSFormatError String :=
  if msOutImageUrl resp != "" then
    if input.resType == "b64" then .ok (urlToBase64 download (msOutImageUrl resp))
    else .ok (msOutImageUrl resp)
  else if msOutImageBase64 resp != "" then
    if jsStartsWith (msOutImageBase64 resp) "data:image" then .ok (msOutImageBase64 resp)
    else .ok ("data:image/png;base64," ++ msOutImageBase64 resp)
  else if msOutText resp != "" then
    .ok ("data:text/plain;base64," ++ bufferBase64 (msOutText resp))
  else .error { message := "ModelScope接口返回格式不支持或未获取到图片", rawBody := resp }

/-- Response normalisation of the legacy ModelScope image adapter
(modelScope.ts lines 142-155): same probe order, but the `image_base64` branch
returns the provider payload verbatim and the failure carries only the fixed
message. -/
def msLegacyNormalize (resp : MSResponse) : Except String String :=
  if msOutImageUrl resp != "" then .ok (msOutImageUrl resp)
  else if msOutImageBase64 resp != "" then .ok (msOutImageBase64 resp)
  else if msOutText resp != "" then .ok ("data:text/plain;base64," ++ bufferBase64 (msOutText resp))
  else .error "魔塔接口返回格式不支持"

/-- Default-path `generateImage` branch of the image dispatcher (other.ts line
125): the AI-SDK result's base64 payload is returned to the caller verbatim,
with no `data:` prefix added. -/
def openAIImageResult (imageBase64 : String) : String := imageBase64

/-- Data-URI output shape `data:...`. -/
def isDataUri (s : String) : Bool := jsStartsWith s "data:"

/-- Bare web-URL output shape, as produced by every provider URL field handled
by this code. -/
def isHttpUrl (s : String) : Bool := jsStartsWith s "http://" || jsStartsWith s "https://"

/-- Character class `[a-z/]` of the spec's output-shape regex. -/
def isLowerSlash (c : Char) : Bool := ('a' ≤ c && c ≤ 'z') || c == '/'

/-- Shape test for the regex `^data:[a-z/]+;base64,`. -/
def matchesDataB64 (s : String) : Bool :=
  let cs := s.data
  cs.take 5 == "data:".data &&
    !((cs.drop 5).takeWhile isLowerSlash).isEmpty &&
    ((cs.drop 5).dropWhile isLowerSlash).take 8 == ";base64,".data

/-- Modelled from the spec: result of one status check of the polling helper
`pollTask` (implementation imported from "@/utils/ai/utils", not under src/),
shape `{completed: bool, url?: string, error?: string}` with absent strings
modelled as `""`. -/
structure CheckResult where
  completed : Bool := false
  url : String := ""
  error : String := ""
deriving DecidableEq

/-- Modelled from the spec: terminal outcome of `pollTask`, recording the URL or
error, the number of check calls made, and the total cooperative-sleep time
waited before the final call. -/
inductive PollOutcome where
  | resolved (url : String) (calls waited : Nat)
  | failed (error : String) (calls waited : Nat)
  | timedOut (calls waited : Nat)
deriving DecidableEq

/-- Modelled from the spec: the single linear wait loop of `pollTask`. The nth
call happens after `(n-1)·interval` of sleep; each call is examined in the
spec's order (`completed` resolves, a non-empty `error` fails immediately,
elapsed time beyond `timeout` times out, otherwise sleep one interval and
retry). The fuel argument bounds the recursion and is chosen in `pollTask`
large enough that it never runs out when the interval is positive. -/
def pollGo (check : Nat → CheckResult) (interval timeout : Nat) :
    Nat → Nat → Nat → PollOutcome
  | 0, n, elapsed => .timedOut (n - 1) elapsed
  | fuel + 1, n, elapsed =>
    let r := check n
    if r.completed then .resolved r.url n elapsed
    else if r.error != "" then .failed r.error n elapsed
    else if timeout < elapsed then .timedOut n elapsed
    else pollGo check interval timeout fuel (n + 1) (elapsed + interval)

/-- Modelled from the spec: `pollTask(check, interval, timeout)` — invoke `check`
repeatedly with a fixed inter-call delay of `interval` until it reports
completion or a non-empty error, or the elapsed time exceeds `timeout`. -/
def pollTask (check : Nat → CheckResult) (interval timeout : Nat) : PollOutcome :=
  pollGo check interval timeout (timeout / interval + 2) 1 0

/-- List-prefix helper: a list starts with itself before any continuation. -/
theorem listStartsWith_append (p rest : List Char) : listStartsWith p (p ++ rest) = true := by
  induction p with
  | nil => rfl
  | cons a as ih => simpa [listStartsWith] using ih

/-- Take of an append at the left length. -/
theorem take_append_len {α : Type} (a b : List α) : (a ++ b).take a.length = a := by
  induction a with
  | nil => rfl
  | cons x xs ih => simp [List.take, ih]

/-- Drop of an append at the left length. -/
theorem drop_append_len {α : Type} (a b : List α) : (a ++ b).drop a.length = b := by
  induction a with
  | nil => rfl
  | cons x xs ih => simp [List.drop, ih]

/-- Dropping while a predicate holds skips a satisfying block and stops at a
first failing element. -/
theorem dropWhile_append_all {α : Type} (p : α → Bool) (w r : List α)
    (hw : ∀ c ∈ w, p c = true) (hr : ∀ c, r.head? = some c → p c = false) :
    (w ++ r).dropWhile p = r := by
  induction w with
  | nil =>
    cases r with
    | nil => rfl
    | cons c cs => simp [List.dropWhile, hr c rfl]
  | cons x xs ih =>
    have hx : p x = true := hw x (by simp)
    simp only [List.cons_append, List.dropWhile, hx]
    exact ih (fun c hc => hw c (by simp [hc]))

/-- Taking while a predicate holds keeps a satisfying block up to a first
failing element. -/
theorem takeWhile_append_all {α : Type} (p : α → Bool) (w r : List α)
    (hw : ∀ c ∈ w, p c = true) (hr : ∀ c, r.head? = some c → p c = false) :
    (w ++ r).takeWhile p = w := by
  induction w with
  | nil =>
    cases r with
    | nil => rfl
    | cons c cs => simp [List.takeWhile, hr c rfl]
  | cons x xs ih =>
    have hx : p x = true := hw x (by simp)
    simp only [List.cons_append, List.takeWhile, hx]
    simpa using ih (fun c hc => hw c (by simp [hc]))

/-- Silent non-terminal check calls within the timeout window advance the poll
loop one call and one interval at a time. -/
theorem pollGo_skip (check : Nat → CheckResult) (interval timeout : Nat) :
    ∀ (k fuel n elapsed : Nat),
      (∀ j, j < k → (check (n + j)).completed = false ∧ (check (n + j)).error = "") →
      (∀ j, j < k → elapsed + j * interval ≤ timeout) →
      pollGo check interval timeout (fuel + k) n elapsed =
        pollGo check interval timeout fuel (n + k) (elapsed + k * interval) := by
  intro k
  induction k with
  | zero => intro fuel n elapsed _ _; simp
  | succ k ih =>
    intro fuel n elapsed hsilent hfit
    have h0 := hsilent 0 (Nat.succ_pos k)
    have hf0 := hfit 0 (Nat.succ_pos k)
    simp only [Nat.add_zero, Nat.zero_mul] at h0 hf0
    have hstep : fuel + (k + 1) = (fuel + k) + 1 := by omega
    rw [hstep]
    have hnc : ¬ timeout < elapsed := by omega
    have hrec := ih fuel (n + 1) (elapsed + interval)
      (fun j hj => by
        have h := hsilent (j + 1) (by omega)
        have harg : n + (j + 1) = n + 1 + j := by omega
        rwa [harg] at h)
      (fun j hj => by
        have h := hfit (j + 1) (by omega)
        have harg : elapsed + (j + 1) * interval = elapsed + interval + j * interval := by ring
        rwa [harg] at h)
    have harg1 : n + 1 + k = n + (k + 1) := by omega
    have harg2 : elapsed + interval + k * interval = elapsed + (k + 1) * interval := by ring
    rw [harg1, harg2] at hrec
    simp only [pollGo, h0.1, h0.2, Bool.false_eq_true, if_false, bne_self_eq_false,
      if_neg hnc]
    exact hrec

/-- C3: the poller invokes the check function repeatedly with a fixed inter-call
delay equal to the configured interval (so the nth call happens after
`(n-1)·interval` of sleep): if the check first reports completion on call N the
poller resolves with that call's URL after exactly N calls; a non-empty error
fails immediately on the call that reports it, with no further retries; and a
check that never completes times out after a total wait of approximately the
configured timeout — strictly more than `timeout` and at most
`timeout + interval`. -/
theorem poll_task_contract :
    (∀ (check : Nat → CheckResult) (interval timeout N : Nat),
      0 < interval → 1 ≤ N →
      (∀ m, 1 ≤ m → m < N → (check m).completed = false ∧ (check m).error = "") →
      (N - 2) * interval ≤ timeout →
      ((check N).completed = true →
        pollTask check interval timeout =
          PollOutcome.resolved (check N).url N ((N - 1) * interval)) ∧
      ((check N).completed = false → (check N).error ≠ "" →
        pollTask check interval timeout =
          PollOutcome.failed (check N).error N ((N - 1) * interval))) ∧
    (∀ (check : Nat → CheckResult) (interval timeout : Nat),
      0 < interval →
      (∀ m, (check m).completed = false ∧ (check m).error = "") →
      pollTask check interval timeout =
        PollOutcome.timedOut (timeout / interval + 2) ((timeout / interval + 1) * interval) ∧
      timeout < (timeout / interval + 1) * interval ∧
      (timeout / interval + 1) * interval ≤ timeout + interval) := by
  constructor
  · intro check i t N hi hN hsilent hfit
    have hNF : N ≤ t / i + 2 := by
      have hdiv : N - 2 ≤ t / i := by
        rw [Nat.le_div_iff_mul_le hi]
        exact hfit
      have hq : 0 ≤ t / i := Nat.zero_le _
      rcases Nat.lt_or_ge N 2 with h | h
      · omega
      · omega
    have hsk := pollGo_skip check i t (N - 1) (t / i + 2 - (N - 1)) 1 0
      (fun j hj => hsilent (1 + j) (by omega) (by omega))
      (fun j hj => by
        have h1 : j * i ≤ (N - 2) * i := Nat.mul_le_mul_right i (by omega)
        simpa using le_trans h1 hfit)
    have hfuel : t / i + 2 - (N - 1) + (N - 1) = t / i + 2 := by omega
    have hn1 : 1 + (N - 1) = N := by omega
    rw [hfuel, hn1] at hsk
    simp only [Nat.zero_add] at hsk
    obtain ⟨fuel, hf⟩ : ∃ fuel, t / i + 2 - (N - 1) = fuel + 1 :=
      ⟨t / i + 2 - (N - 1) - 1, by omega⟩
    rw [hf] at hsk
    constructor
    · intro hc
      unfold pollTask
      rw [hsk]
      simp [pollGo, hc]
    · intro hc he
      unfold pollTask
      rw [hsk]
      simp [pollGo, hc, bne_iff_ne, he]
  · intro check i t hi hsilent
    have hsk := pollGo_skip check i t (t / i + 1) 1 1 0
      (fun j hj => hsilent (1 + j))
      (fun j hj => by
        have h1 : j * i ≤ t / i * i := Nat.mul_le_mul_right i (by omega)
        simpa using le_trans h1 (Nat.div_mul_le_self t i))
    have hfuel : 1 + (t / i + 1) = t / i + 2 := by omega
    rw [hfuel] at hsk
    simp only [Nat.zero_add] at hsk
    have htlt : t < (t / i + 1) * i := by
      have hmod := Nat.div_add_mod t i
      have hmlt : t % i < i := Nat.mod_lt t hi
      calc t = i * (t / i) + t % i := hmod.symm
        _ < i * (t / i) + i := by omega
        _ = (t / i + 1) * i := by ring
    have hle : (t / i + 1) * i ≤ t + i := by
      have h1 := Nat.div_mul_le_self t i
      calc (t / i + 1) * i = t / i * i + i := by ring
        _ ≤ t + i := by omega
    refine ⟨?_, htlt, hle⟩
    unfold pollTask
    rw [hsk]
    have h1 := (hsilent (t / i + 2)).1
    have h2 := (hsilent (t / i + 2)).2
    simp [pollGo, h1, h2, htlt]

/-- Witness for the poller contract: a check that completes on the second call
resolves after exactly 2 calls and 3ms of wait; a check that errors on the
third call fails there; a silent check with interval 3 and timeout 7 times out
after 9ms of wait. -/
theorem poll_task_contract_witness :
    pollTask (fun n => if n == 2 then { completed := true, url := "https://v.example/out.mp4" }
        else { }) 3 10 =
      PollOutcome.resolved "https://v.example/out.mp4" 2 3 ∧
    pollTask (fun n => if n == 3 then { error := "task failed" } else { }) 2 100 =
      PollOutcome.failed "task failed" 3 4 ∧
    pollTask (fun _ => { }) 3 7 = PollOutcome.timedOut 4 9 := by
  refine ⟨?_, ?_, ?_⟩
  · exact (poll_task_contract.1
      (fun n => if n == 2 then { completed := true, url := "https://v.example/out.mp4" } else { })
      3 10 2 (by decide) (by decide)
      (fun m h1 h2 => by
        have hm : m = 1 := by omega
        subst hm
        exact ⟨rfl, rfl⟩)
      (by decide)).1 rfl
  · exact (poll_task_contract.1
      (fun n => if n == 3 then { error := "task failed" } else { })
      2 100 3 (by decide) (by decide)
      (fun m h1 h2 => by
        have hm : m = 1 ∨ m = 2 := by omega
        rcases hm with hm | hm <;> subst hm <;> exact ⟨rfl, rfl⟩)
      (by decide)).2 rfl (by decide)
  · exact ((poll_task_contract.2 (fun _ => { }) 3 7 (by decide) (fun m => ⟨rfl, rfl⟩)).1)

/-- C1: the image dispatcher selects exactly one provider adapter per
configuration by ordered substring checks with the first match winning — the
Zhipu-family condition first, then the ModelScope-family condition (keywords or
slash presence), else the OpenAI-compatible default — in both dispatcher
versions. In particular "cogview-4" routes to Zhipu,
"Tongyi-MAI/Z-Image-Turbo" to ModelScope, and "gpt-image-1" with a configured
baseURL passes validation and routes to the default OpenAI-compatible path. -/
theorem image_dispatcher_routing :
    (∀ m, zhipuImageCond m = true → imageRoute m = Route.zhipu) ∧
    (∀ m, zhipuImageCond m = false → modelScopeImageCond m = true →
      imageRoute m = Route.modelScope) ∧
    (∀ m, zhipuImageCond m = false → modelScopeImageCond m = false →
      imageRoute m = Route.openAICompat) ∧
    imageRoute "cogview-4" = Route.zhipu ∧
    imageRoute "Tongyi-MAI/Z-Image-Turbo" = Route.modelScope ∧
    imageRoute "gpt-image-1" = Route.openAICompat ∧
    imageRouteVariant "cogview-4" = Route.zhipu ∧
    imageRouteVariant "Tongyi-MAI/Z-Image-Turbo" = Route.modelScope ∧
    imageRouteVariant "gpt-image-1" = Route.openAICompat ∧
    (∀ inp : ImageConfig,
      imagePrepare inp { model := "gpt-image-1", apiKey := "k", baseURL := "https://api.example.com/v1" } =
        Except.ok (ImagePlan.openAICompat "https://api.example.com/v1")) := by
  refine ⟨?_, ?_, ?_, by decide, by decide, by decide, by decide, by decide, by decide, ?_⟩
  · intro m h
    simp [imageRoute, h]
  · intro m h1 h2
    simp [imageRoute, h1, h2]
  · intro m h1 h2
    simp [imageRoute, h1, h2]
  · intro inp
    rfl

/-- Witness for the routing theorem: concrete models exercising each ordered
branch of the dispatcher. -/
theorem image_dispatcher_routing_witness :
    imageRoute "my-cogview-model" = Route.zhipu ∧
    imageRoute "team/model" = Route.modelScope ∧
    imageRoute "dall-e-3" = Route.openAICompat :=
  ⟨image_dispatcher_routing.1 "my-cogview-model" (by decide),
   image_dispatcher_routing.2.1 "team/model" (by decide) (by decide),
   image_dispatcher_routing.2.2.1 "dall-e-3" (by decide) (by decide)⟩

/-- C2: the ModelScope native response normaliser probes `output.image_url`,
then `output.image_base64`, then `output.text` in that fixed priority order and
returns the unified result from the first truthy field — the URL (downloaded
and re-encoded when base64 output was requested), the base64 payload
(re-prefixed when bare), or the text wrapped as `data:text/plain;base64,...` —
and when none of the three fields is present it fails with the fixed
format-error message carrying the raw body for diagnostics. -/
theorem ms_native_response_contract :
    (∀ download inp resp, msOutImageUrl resp ≠ "" → inp.resType ≠ "b64" →
      msNativeNormalize download inp resp = Except.ok (msOutImageUrl resp)) ∧
    (∀ download inp resp, msOutImageUrl resp ≠ "" → inp.resType = "b64" →
      msNativeNormalize download inp resp =
        Except.ok (urlToBase64 download (msOutImageUrl resp))) ∧
    (∀ download inp resp, msOutImageUrl resp = "" → msOutImageBase64 resp ≠ "" →
      msNativeNormalize download inp resp =
        Except.ok (if jsStartsWith (msOutImageBase64 resp) "data:image" then msOutImageBase64 resp
          else "data:image/png;base64," ++ msOutImageBase64 resp)) ∧
    (∀ download inp resp, msOutImageUrl resp = "" → msOutImageBase64 resp = "" →
      msOutText resp ≠ "" →
      msNativeNormalize download inp resp =
        Except.ok ("data:text/plain;base64," ++ bufferBase64 (msOutText resp))) ∧
    (∀ download inp resp, msOutImageUrl resp = "" → msOutImageBase64 resp = "" →
      msOutText resp = "" →
      msNativeNormalize download inp resp =
        Except.error { message := "ModelScope接口返回格式不支持或未获取到图片", rawBody := resp }) ∧
    (∀ download inp,
      msNativeNormalize download inp { output := some { text := "hi" } } =
        Except.ok "data:text/plain;base64,aGk=") := by
  refine ⟨?_, ?_, ?_, ?_, ?_, ?_⟩
  · intro download inp resp h1 h2
    simp [msNativeNormalize, bne_iff_ne, h1, h2]
  · intro download inp resp h1 h2
    simp [msNativeNormalize, bne_iff_ne, h1, h2]
  · intro download inp resp h1 h2
    simp [msNativeNormalize, bne_iff_ne, h1, h2]
    split <;> rfl
  · intro download inp resp h1 h2 h3
    simp [msNativeNormalize, bne_iff_ne, h1, h2, h3]
  · intro download inp resp h1 h2 h3
    simp [msNativeNormalize, bne_iff_ne, h1, h2, h3]
  · intro download inp
    rfl

/-- Witness for the ModelScope native normaliser: concrete responses hitting
each probe in priority order and the failure branch. -/
theorem ms_native_response_contract_witness :
    msNativeNormalize (fun _ => { bytes := [] }) { }
        { output := some { image_url := "https://img.example/a.png", text := "t" } } =
      Except.ok "https://img.example/a.png" ∧
    msNativeNormalize (fun _ => { bytes := [] }) { }
        { output := some { image_base64 := "QUJD" } } =
      Except.ok "data:image/png;base64,QUJD" ∧
    msNativeNormalize (fun _ => { bytes := [] }) { } { output := some { text := "hi" } } =
      Except.ok "data:text/plain;base64,aGk=" ∧
    msNativeNormalize (fun _ => { bytes := [] }) { } { output := none } =
      Except.error ⟨"ModelScope接口返回格式不支持或未获取到图片", { output := none }⟩ := by
  refine ⟨?_, ?_, ?_, ?_⟩
  · exact (ms_native_response_contract.1 (fun _ => { bytes := [] }) { }
      { output := some { image_url := "https://img.example/a.png", text := "t" } }
      (by decide) (by decide))
  · exact (ms_native_response_contract.2.2.1 (fun _ => { bytes := [] }) { }
      { output := some { image_base64 := "QUJD" } } (by decide) (by decide))
  · exact (ms_native_response_contract.2.2.2.2.2 (fun _ => { bytes := [] }) { })
  · exact (ms_native_response_contract.2.2.2.2.1 (fun _ => { bytes := [] }) { }
      { output := none } (by decide) (by decide) (by decide))

/-- Reduction of the Bearer-stripping replacement on an exact-case `Bearer`
prefix: the decision reduces to the first character after `Bearer`. -/
theorem stripBearer_cons (c : Char) (tail : List Char) :
    stripBearer ('B' :: 'e' :: 'a' :: 'r' :: 'e' :: 'r' :: c :: tail) =
      if isJsWs c then tail.dropWhile isJsWs
      else 'B' :: 'e' :: 'a' :: 'r' :: 'e' :: 'r' :: c :: tail := rfl

/-- C6: a leading prefix matching `^Bearer\s+` is stripped from the supplied
API key — the whole whitespace run after `Bearer` — and the remainder trimmed,
before the key is re-prefixed with `Bearer ` in the Authorization header; in
particular "Bearer   abc123  " normalises to "abc123". -/
theorem api_key_bearer_normalization :
    (∀ w r : List Char, w ≠ [] → (∀ c ∈ w, isJsWs c = true) →
      (∀ c, r.head? = some c → isJsWs c = false) →
      normalizeApiKey (String.mk ('B' :: 'e' :: 'a' :: 'r' :: 'e' :: 'r' :: (w ++ r))) =
        String.mk (trimJs r)) ∧
    normalizeApiKey "Bearer   abc123  " = "abc123" ∧
    authHeader "Bearer   abc123  " = "Bearer abc123" := by
  refine ⟨?_, by decide, by decide⟩
  intro w r hw hall hr
  rcases w with _ | ⟨c, w2⟩
  · exact absurd rfl hw
  · have hc : isJsWs c = true := hall c (by simp)
    have hdrop : (w2 ++ r).dropWhile isJsWs = r :=
      dropWhile_append_all isJsWs w2 r (fun x hx => hall x (by simp [hx])) hr
    simp [normalizeApiKey, List.cons_append, stripBearer_cons, hc, hdrop]

/-- Witness for the Bearer normalisation: prefix `Bearer` plus one space before
`xy ` trims to `xy`. -/
theorem api_key_bearer_normalization_witness :
    normalizeApiKey (String.mk ('B' :: 'e' :: 'a' :: 'r' :: 'e' :: 'r' :: ([' '] ++ ['x', 'y', ' ']))) =
      String.mk (trimJs ['x', 'y', ' ']) :=
  api_key_bearer_normalization.1 [' '] ['x', 'y', ' '] (by decide)
    (by intro c hc; simp at hc; subst hc; rfl)
    (by intro c hc; simp at hc; subst hc; rfl)

/-- Reduction of the data-URI replacement on an exact `data:image/` prefix:
the decision reduces to the letter run and the `;base64,` delimiter. -/
theorem stripDataImage_cons (tail : List Char) :
    stripDataImage (String.mk ('d' :: 'a' :: 't' :: 'a' :: ':' :: 'i' :: 'm' :: 'a' :: 'g' ::
        'e' :: '/' :: tail)) =
      (if (tail.takeWhile isAsciiLetter).isEmpty then
        String.mk ('d' :: 'a' :: 't' :: 'a' :: ':' :: 'i' :: 'm' :: 'a' :: 'g' :: 'e' :: '/' :: tail)
      else if ((tail.dropWhile isAsciiLetter).take 8).map Char.toLower == ";base64,".data then
        String.mk ((tail.dropWhile isAsciiLetter).drop 8)
      else
        String.mk ('d' :: 'a' :: 't' :: 'a' :: ':' :: 'i' :: 'm' :: 'a' :: 'g' :: 'e' :: '/' :: tail)) := rfl

/-- Stripping lemma for the anchored data-URI replacement: for any nonempty
letter extension, the full prefix `data:image/<ext>;base64,` is removed. -/
theorem stripDataImage_strips (ext payload : List Char) (hne : ext ≠ [])
    (hext : ∀ c ∈ ext, isAsciiLetter c = true) :
    stripDataImage (String.mk ("data:image/".data ++ (ext ++ (";base64,".data ++ payload)))) =
      String.mk payload := by
  have hsemi : ∀ c, (';' :: 'b' :: 'a' :: 's' :: 'e' :: '6' :: '4' :: ',' :: payload).head? = some c →
      isAsciiLetter c = false := by
    intro c hc
    have hc2 : c = ';' := by
      simp only [List.head?] at hc
      exact (Option.some_inj.mp hc).symm
    subst hc2
    rfl
  have htw : (ext ++ (';' :: 'b' :: 'a' :: 's' :: 'e' :: '6' :: '4' :: ',' :: payload)).takeWhile
      isAsciiLetter = ext :=
    takeWhile_append_all isAsciiLetter ext _ hext hsemi
  have hdw : (ext ++ (';' :: 'b' :: 'a' :: 's' :: 'e' :: '6' :: '4' :: ',' :: payload)).dropWhile
      isAsciiLetter = ';' :: 'b' :: 'a' :: 's' :: 'e' :: '6' :: '4' :: ',' :: payload :=
    dropWhile_append_all isAsciiLetter ext _ hext hsemi
  have hemp : ext.isEmpty = false := by
    cases ext
    · exact absurd rfl hne
    · rfl
  show stripDataImage (String.mk ('d' :: 'a' :: 't' :: 'a' :: ':' :: 'i' :: 'm' :: 'a' :: 'g' ::
      'e' :: '/' :: (ext ++ (';' :: 'b' :: 'a' :: 's' :: 'e' :: '6' :: '4' :: ',' :: payload)))) =
    String.mk payload
  rw [stripDataImage_cons, htw, hdw]
  simp [hemp]

/-- C7: a reference image supplied as a data URI to a provider expecting bare
base64 has its leading `data:image/...;base64,` prefix stripped before the
payload is placed in the request body; in particular
"data:image/png;base64,AAA=" is forwarded as "AAA=", including through the
Zhipu and ModelScope request builders. -/
theorem data_uri_prefix_stripping :
    (∀ ext payload : List Char, ext ≠ [] → (∀ c ∈ ext, isAsciiLetter c = true) →
      stripDataImage (String.mk ("data:image/".data ++ (ext ++ (";base64,".data ++ payload)))) =
        String.mk payload) ∧
    stripDataImage "data:image/png;base64,AAA=" = "AAA=" ∧
    (∀ (inp : ImageConfig) (cfg : AIConfig) (rest : List String), (zhipuImageBody
        { inp with imageBase64 := "data:image/png;base64,AAA=" :: rest } cfg).image =
      some "AAA=") ∧
    (∀ (inp : ImageConfig) (rest : List String), (msNativeRequest
        { inp with imageBase64 := "data:image/png;base64,AAA=" :: rest }).image =
      some "AAA=") := by
  refine ⟨stripDataImage_strips, by decide, ?_, ?_⟩
  · intro inp cfg rest
    show some (stripDataImage "data:image/png;base64,AAA=") = some "AAA="
    decide
  · intro inp rest
    show some (stripDataImage "data:image/png;base64,AAA=") = some "AAA="
    decide

/-- Witness for the data-URI stripping: extension `png` with payload `AAA=`. -/
theorem data_uri_prefix_stripping_witness :
    stripDataImage (String.mk ("data:image/".data ++
        (['p', 'n', 'g'] ++ (";base64,".data ++ ['A', 'A', 'A', '='])))) =
      String.mk ['A', 'A', 'A', '='] :=
  data_uri_prefix_stripping.1 ['p', 'n', 'g'] ['A', 'A', 'A', '='] (by decide)
    (by intro c hc; fin_cases hc <;> rfl)

/-- Shape lemma: a string `data:<tail>` matches `^data:[a-z/]+;base64,` when the
tail starts with a nonempty `[a-z/]` run followed by `;base64,`. -/
theorem matchesDataB64_parts (tail : List Char)
    (h1 : (tail.takeWhile isLowerSlash).isEmpty = false)
    (h2 : ((tail.dropWhile isLowerSlash).take 8 == ";base64,".data) = true) :
    matchesDataB64 (String.mk ('d' :: 'a' :: 't' :: 'a' :: ':' :: tail)) = true := by
  show (!(tail.takeWhile isLowerSlash).isEmpty &&
      ((tail.dropWhile isLowerSlash).take 8 == ";base64,".data)) = true
  rw [h1, h2]
  rfl

/-- Wrapping lemma: `data:` ++ mime ++ `;base64,` ++ anything matches the
output-shape regex whenever the mime type is a nonempty `[a-z/]` string. -/
theorem matchesDataB64_wrap (mime b64 : List Char) (hne : mime ≠ [])
    (hm : ∀ c ∈ mime, isLowerSlash c = true) :
    matchesDataB64 (String.mk ((("data:".data ++ mime) ++ ";base64,".data) ++ b64)) = true := by
  have hsemi : ∀ c, (';' :: 'b' :: 'a' :: 's' :: 'e' :: '6' :: '4' :: ',' :: b64).head? = some c →
      isLowerSlash c = false := by
    intro c hc
    have hc2 : c = ';' := by
      simp only [List.head?] at hc
      exact (Option.some_inj.mp hc).symm
    subst hc2
    rfl
  have hemp : mime.isEmpty = false := by
    cases mime
    · exact absurd rfl hne
    · rfl
  have hdata : (("data:".data ++ mime) ++ ";base64,".data) ++ b64 =
      "data:".data ++ (mime ++ (";base64,".data ++ b64)) := by
    simp [List.append_assoc]
  rw [hdata]
  have h1 : ((mime ++ (';' :: 'b' :: 'a' :: 's' :: 'e' :: '6' :: '4' :: ',' :: b64)).takeWhile
      isLowerSlash).isEmpty = false := by
    rw [takeWhile_append_all isLowerSlash mime _ hm hsemi]
    exact hemp
  have h2 : (((mime ++ (';' :: 'b' :: 'a' :: 's' :: 'e' :: '6' :: '4' :: ',' :: b64)).dropWhile
      isLowerSlash).take 8 == ";base64,".data) = true := by
    rw [dropWhile_append_all isLowerSlash mime _ hm hsemi]
    rfl
  exact matchesDataB64_parts (mime ++ (';' :: 'b' :: 'a' :: 's' :: 'e' :: '6' :: '4' :: ',' :: b64)) h1 h2

/-- C8: when base64 output is requested (`resType = "b64"`) but the provider
returned only an image URL, the Zhipu adapter downloads that URL and returns
the bytes re-encoded as base64 in a data URI wrapped with the response's
declared content-type, defaulting to `image/png` when the header is absent;
for content-types made of `[a-z/]` characters the result matches
`^data:[a-z/]+;base64,`. -/
theorem url_download_base64_wrapping :
    (∀ (download : String → DownloadResp) (inp : ImageConfig) (resp : ZhipuImageResp)
        (item : ZhipuImageItem),
      resp.data.head? = some item → item.url ≠ "" → inp.resType = "b64" →
      zhipuFinish download inp resp = Except.ok (urlToBase64 download item.url)) ∧
    (∀ (download : String → DownloadResp) (url : String), (download url).contentType = "" →
      urlToBase64 download url =
        "data:" ++ "image/png" ++ ";base64," ++ String.mk (base64Encode (download url).bytes)) ∧
    (∀ (download : String → DownloadResp) (url : String), (download url).contentType ≠ "" →
      urlToBase64 download url =
        "data:" ++ (download url).contentType ++ ";base64," ++
          String.mk (base64Encode (download url).bytes)) ∧
    (∀ (download : String → DownloadResp) (url : String),
      (∀ c ∈ ((download url).contentType).data, isLowerSlash c = true) →
      matchesDataB64 (urlToBase64 download url) = true) := by
  refine ⟨?_, ?_, ?_, ?_⟩
  · intro download inp resp item hh hu hr
    cases hd : resp.data with
    | nil => rw [hd] at hh; simp at hh
    | cons a l =>
      rw [hd] at hh
      simp only [List.head?, Option.some_inj] at hh
      subst hh
      simp [zhipuFinish, hd, hu, hr]
  · intro download url h
    simp [urlToBase64, h]
  · intro download url h
    simp [urlToBase64, h]
  · intro download url hclass
    by_cases h : (download url).contentType = ""
    · have hru : urlToBase64 download url =
          "data:" ++ "image/png" ++ ";base64," ++ String.mk (base64Encode (download url).bytes) := by
        simp [urlToBase64, h]
      rw [hru]
      exact matchesDataB64_wrap "image/png".data (base64Encode (download url).bytes)
        (by decide) (by decide)
    · have hru : urlToBase64 download url =
          "data:" ++ (download url).contentType ++ ";base64," ++
            String.mk (base64Encode (download url).bytes) := by
        simp [urlToBase64, h]
      rw [hru]
      have hne : ((download url).contentType).data ≠ [] :=
        fun hd => h (congrArg String.mk hd)
      exact matchesDataB64_wrap ((download url).contentType).data
        (base64Encode (download url).bytes) hne hclass

/-- Witness for the download wrapper: bytes `[1,2,3]` with declared
content-type `image/png` wrap to `data:image/png;base64,AQID`, and the result
matches the output-shape regex. -/
theorem url_download_base64_wrapping_witness :
    zhipuFinish (fun _ => { bytes := [1, 2, 3], contentType := "image/png" })
        { resType := "b64" } { data := [{ url := "https://img.example/a.png" }] } =
      Except.ok (urlToBase64 (fun _ => { bytes := [1, 2, 3], contentType := "image/png" })
        "https://img.example/a.png") ∧
    matchesDataB64 (urlToBase64 (fun _ => { bytes := [1, 2, 3], contentType := "image/png" })
      "https://img.example/a.png") = true := by
  constructor
  · exact url_download_base64_wrapping.1
      (fun _ => { bytes := [1, 2, 3], contentType := "image/png" })
      { resType := "b64" } { data := [{ url := "https://img.example/a.png" }] }
      { url := "https://img.example/a.png" } rfl (by decide) rfl
  · exact url_download_base64_wrapping.2.2.2
      (fun _ => { bytes := [1, 2, 3], contentType := "image/png" })
      "https://img.example/a.png" (by decide)

/-- Counterexample to C4: the video dispatcher variant substitutes the empty
string for an absent model (`config.model || ""`) and proceeds to its default
provider HTTP branch with that empty model identifier — only apiKey (and, on
the default path, baseURL) is checked, so no configuration error is raised. -/
theorem video_variant_empty_model_counterexample :
    videoPrepareVariant { model := "", apiKey := "k", baseURL := "https://api.example.com|https://api.example.com/query" } =
      Except.ok Route.openAICompat := rfl

/-- C4 (amended): apiKey is verified non-empty before any provider HTTP call by
both dispatchers, and on the default OpenAI-compatible path an absent baseURL
fails with a configuration error before any HTTP call; the image dispatcher
also verifies modelId non-empty, but the video dispatcher variant performs no
modelId check. -/
theorem config_validation_before_http :
    (∀ (inp : ImageConfig) (cfg : AIConfig), cfg.model = "" →
      imagePrepare inp cfg = Except.error CfgErr.missingModel) ∧
    (∀ (inp : ImageConfig) (cfg : AIConfig), cfg.model ≠ "" → cfg.apiKey = "" →
      imagePrepare inp cfg = Except.error CfgErr.missingApiKey) ∧
    (∀ (inp : ImageConfig) (cfg : AIConfig) (plan : ImagePlan),
      imagePrepare inp cfg = Except.ok plan → cfg.model ≠ "" ∧ cfg.apiKey ≠ "") ∧
    (∀ (inp : ImageConfig) (cfg : AIConfig) (b : String),
      imagePrepare inp cfg = Except.ok (ImagePlan.openAICompat b) → cfg.baseURL ≠ "") ∧
    (∀ cfg : AIConfig, cfg.apiKey = "" →
      videoPrepareVariant cfg = Except.error CfgErr.missingApiKey) ∧
    (∀ (cfg : AIConfig) (r : Route), videoPrepareVariant cfg = Except.ok r → cfg.apiKey ≠ "") ∧
    (∀ cfg : AIConfig, videoPrepareVariant cfg = Except.ok Route.openAICompat →
      cfg.baseURL ≠ "") := by
  refine ⟨?_, ?_, ?_, ?_, ?_, ?_, ?_⟩
  · intro inp cfg hm
    simp [imagePrepare, hm]
  · intro inp cfg hm hk
    simp [imagePrepare, hm, hk, beq_iff_eq]
  · intro inp cfg plan h
    constructor
    · intro hm
      simp [imagePrepare, hm] at h
    · intro hk
      by_cases hm : cfg.model = ""
      · simp [imagePrepare, hm] at h
      · simp [imagePrepare, hm, hk, beq_iff_eq] at h
  · intro inp cfg b h hb
    by_cases hm : cfg.model = ""
    · simp [imagePrepare, hm] at h
    · by_cases hk : cfg.apiKey = ""
      · simp [imagePrepare, hm, hk, beq_iff_eq] at h
      · by_cases hz : zhipuImageCond cfg.model
        · simp [imagePrepare, hm, hk, hz, beq_iff_eq] at h
        · by_cases hms : modelScopeImageCond cfg.model
          · simp [imagePrepare, hm, hk, hz, hms, beq_iff_eq] at h
          · simp [imagePrepare, hm, hk, hz, hms, hb, beq_iff_eq] at h
  · intro cfg hk
    simp [videoPrepareVariant, hk]
  · intro cfg r h hk
    simp [videoPrepareVariant, hk] at h
  · intro cfg h hb
    by_cases hk : cfg.apiKey = ""
    · simp [videoPrepareVariant, hk] at h
    · by_cases hz : zhipuVideoCondVariant cfg.model
      · simp [videoPrepareVariant, hk, hz, beq_iff_eq] at h
      · by_cases hms : modelScopeVideoCondVariant cfg.model cfg.baseURL
        · simp [videoPrepareVariant, hk, hz, hms, beq_iff_eq] at h
        · have hms2 : modelScopeVideoCondVariant cfg.model "" = false := by
            rw [← hb]
            simpa using hms
          simp [videoPrepareVariant, hk, hz, hms, hms2, hb, beq_iff_eq] at h

/-- Witness for the validation theorem: concrete configurations exercising the
missing-model, missing-apiKey and successful-dispatch branches. -/
theorem config_validation_before_http_witness :
    imagePrepare { } { apiKey := "k" } = Except.error CfgErr.missingModel ∧
    imagePrepare { } { model := "m", baseURL := "https://b.example" } =
      Except.error CfgErr.missingApiKey ∧
    (("cogview-4" : String) ≠ "" ∧ ("k" : String) ≠ "") ∧
    videoPrepareVariant { model := "x" } = Except.error CfgErr.missingApiKey :=
  ⟨config_validation_before_http.1 { } { apiKey := "k" } rfl,
   config_validation_before_http.2.1 { } { model := "m", baseURL := "https://b.example" }
     (by decide) rfl,
   config_validation_before_http.2.2.1 { } { model := "cogview-4", apiKey := "k" } _ rfl,
   config_validation_before_http.2.2.2.2.1 { model := "x" } rfl⟩

/-- Text wrapper results always carry the `data:` prefix. -/
theorem isDataUri_textwrap (x : String) : isDataUri ("data:text/plain;base64," ++ x) = true := rfl

/-- Counterexample to C5: the legacy ModelScope adapter's `image_base64` branch
returns the provider payload verbatim — successful output "QUJDRA==" is neither
a web URL nor a `data:<mime>;base64,` string. -/
theorem legacy_base64_passthrough_counterexample :
    msLegacyNormalize { output := some { image_base64 := "QUJDRA==" } } = Except.ok "QUJDRA==" ∧
    isDataUri "QUJDRA==" = false ∧
    isHttpUrl "QUJDRA==" = false := ⟨rfl, rfl, rfl⟩

/-- C5 (amended): every successful result of the legacy ModelScope normaliser
is the provider's `image_url` string, the provider's `image_base64` payload
verbatim (which need not be a URL nor carry a `data:` prefix), or a
`data:text/plain;base64,` text wrapper; the default-path `generateImage` branch
likewise returns the provider's base64 payload verbatim. When neither image
field is present, the successful result is a data URI. -/
theorem adapter_output_shapes :
    (∀ (resp : MSResponse) (s : String), msLegacyNormalize resp = Except.ok s →
      s = msOutImageUrl resp ∨ s = msOutImageBase64 resp ∨
      s = "data:text/plain;base64," ++ bufferBase64 (msOutText resp)) ∧
    (∀ (resp : MSResponse) (s : String), msLegacyNormalize resp = Except.ok s →
      msOutImageUrl resp = "" → msOutImageBase64 resp = "" → isDataUri s = true) ∧
    (∀ b : String, openAIImageResult b = b) := by
  refine ⟨?_, ?_, fun b => rfl⟩
  · intro resp s h
    by_cases h1 : msOutImageUrl resp = ""
    · by_cases h2 : msOutImageBase64 resp = ""
      · by_cases h3 : msOutText resp = ""
        · simp [msLegacyNormalize, bne_iff_ne, h1, h2, h3] at h
        · right; right
          simp [msLegacyNormalize, bne_iff_ne, h1, h2, h3] at h
          exact h.symm
      · right; left
        simp [msLegacyNormalize, bne_iff_ne, h1, h2] at h
        exact h.symm
    · left
      simp [msLegacyNormalize, bne_iff_ne, h1] at h
      exact h.symm
  · intro resp s h h1 h2
    by_cases h3 : msOutText resp = ""
    · simp [msLegacyNormalize, bne_iff_ne, h1, h2, h3] at h
    · simp [msLegacyNormalize, bne_iff_ne, h1, h2, h3] at h
      rw [← h]
      exact isDataUri_textwrap (bufferBase64 (msOutText resp))

/-- Witness for the output-shape theorem: a base64-only response yields the
verbatim payload, and a text-only response yields a data URI. -/
theorem adapter_output_shapes_witness :
    ("QUJD" = msOutImageUrl { output := some { image_base64 := "QUJD" } } ∨
      "QUJD" = msOutImageBase64 { output := some { image_base64 := "QUJD" } } ∨
      "QUJD" = "data:text/plain;base64," ++
        bufferBase64 (msOutText { output := some { image_base64 := "QUJD" } })) ∧
    isDataUri "data:text/plain;base64,aGk=" = true :=
  ⟨adapter_output_shapes.1 { output := some { image_base64 := "QUJD" } } "QUJD" rfl,
   adapter_output_shapes.2.1 { output := some { text := "hi" } } "data:text/plain;base64,aGk="
     rfl rfl rfl⟩

/-- Counterexample to C9: the dispatcher's Zhipu image path performs no prompt
validation — an empty (absent) prompt passes the dispatcher checks and reaches
the provider request body, with no failure before the HTTP call. -/
theorem zhipu_empty_prompt_counterexample :
    imagePrepare { prompt := "" } { model := "cogview-4", apiKey := "k" } =
      Except.ok (ImagePlan.zhipu { model := "cogview-4", prompt := "", size := none, quality := none, image := none }) := rfl

/-- C9 (amended): the validating adapters enforce the input invariants before
any provider call — the ModelScope native adapter requires the prompt, the
legacy ModelScope image adapter requires a reference image (`imageBase64` entry
or `imageUrl`), and the BigModel video adapter requires a video input
(`videoFile` or `frameBase64List`) — but the dispatcher's Zhipu image path
forwards an empty prompt without failing. -/
theorem input_validation_scope :
    (∀ (inp : ImageConfig) (cfg : AIConfig), cfg.model ≠ "" → cfg.apiKey ≠ "" →
      inp.prompt = "" → msNativePrepare inp cfg = Except.error CfgErr.missingPrompt) ∧
    (∀ (inp : ImageConfig) (cfg : AIConfig) (req : MSNativeRequest),
      msNativePrepare inp cfg = Except.ok req → inp.prompt ≠ "") ∧
    (∀ inp : ImageConfig, inp.imageBase64 = [] → inp.imageUrl = "" →
      msLegacyPrepare inp = Except.error CfgErr.missingImage) ∧
    (∀ (inp : ImageConfig) (req : MSLegacyRequest), msLegacyPrepare inp = Except.ok req →
      inp.imageBase64 ≠ [] ∨ inp.imageUrl ≠ "") ∧
    (∀ (inp : VideoConfig) (cfg : AIConfig), cfg.apiKey ≠ "" →
      (cfg.model = "glm-4v" ∨ cfg.model = "glm-4v-plus") →
      inp.videoFile = false → inp.frameBase64List = none →
      bigModelVideoValidate inp cfg = Except.error CfgErr.missingVideo) := by
  refine ⟨?_, ?_, ?_, ?_, ?_⟩
  · intro inp cfg h1 h2 h3
    simp [msNativePrepare, beq_iff_eq, h1, h2, h3]
  · intro inp cfg req h hp
    by_cases hm : cfg.model = ""
    · simp [msNativePrepare, hm] at h
    · by_cases hk : cfg.apiKey = ""
      · simp [msNativePrepare, hm, hk, beq_iff_eq] at h
      · simp [msNativePrepare, hm, hk, hp, beq_iff_eq] at h
  · intro inp h1 h2
    simp [msLegacyPrepare, h1, h2]
  · intro inp req h
    by_cases hi : inp.imageBase64 = []
    · right
      intro hu
      simp [msLegacyPrepare, hi, hu] at h
    · left
      exact hi
  · intro inp cfg hk hmod hv hf
    rcases hmod with hmod | hmod <;>
      simp [bigModelVideoValidate, beq_iff_eq, hk, hmod, hv, hf]

/-- Witness for the validation-scope theorem: concrete inputs triggering each
missing-input failure. -/
theorem input_validation_scope_witness :
    msNativePrepare { prompt := "" } { model := "Tongyi-MAI/Z-Image-Turbo", apiKey := "k" } =
      Except.error CfgErr.missingPrompt ∧
    msLegacyPrepare { prompt := "p" } = Except.error CfgErr.missingImage ∧
    bigModelVideoValidate { } { model := "glm-4v", apiKey := "k" } =
      Except.error CfgErr.missingVideo :=
  ⟨input_validation_scope.1 { prompt := "" } { model := "Tongyi-MAI/Z-Image-Turbo", apiKey := "k" }
     (by decide) (by decide) rfl,
   input_validation_scope.2.2.1 { prompt := "p" } rfl rfl,
   input_validation_scope.2.2.2.2 { } { model := "glm-4v", apiKey := "k" }
     (by decide) (Or.inl rfl) rfl rfl⟩

/-- C10: the dedicated Zhipu and ModelScope request builders read only the
first `imageBase64` entry — appending further entries leaves the provider
request body unchanged, so second and later entries have no effect on the
request that is sent. -/
theorem first_image_entry_only :
    (∀ (inp : ImageConfig) (cfg : AIConfig) (img : String) (rest : List String),
      zhipuImageBody { inp with imageBase64 := img :: rest } cfg =
        zhipuImageBody { inp with imageBase64 := [img] } cfg) ∧
    (∀ (inp : ImageConfig) (cfg : AIConfig) (img : String) (rest : List String),
      msCompatImageBody { inp with imageBase64 := img :: rest } cfg =
        msCompatImageBody { inp with imageBase64 := [img] } cfg) ∧
    (∀ (inp : ImageConfig) (img : String) (rest : List String),
      msNativeRequest { inp with imageBase64 := img :: rest } =
        msNativeRequest { inp with imageBase64 := [img] }) := by
  refine ⟨?_, ?_, ?_⟩ <;> intros <;> rfl

end Toonflow
